import Mathlib

/-!
Verification of the colour-blind LUT library (CBLuts.cpp / CBLutGen.cpp).

The development is split into two parts:

* an integer model of the 3D LUT machinery (`CreateIdentityLUT`, `ApplyLUT`,
  `ApplyLUTNoLerp`), faithful to the fixed-point arithmetic of the source,
  with C `int` arithmetic embedded as `ℤ` (arithmetic right shift by 3 is
  `Int.fdiv · 8`) and `uint8_t` channels as `ℕ`;

* a real-valued model of the colour algorithms (`Simulate`, `Daltonise`,
  `Correct`, the packing conversions and the LUT builder `CreateLUT`), with
  `float` embedded as `ℝ` and `powf` as `Real.rpow`.
-/

set_option maxRecDepth 100000

namespace CBLut

/-- kLUTBits = 5 in CBLuts.h. -/
def kLUTBits : ℕ := 5

/-- kLUTSize = 1 << kLUTBits = 32. -/
def kLUTSize : ℕ := 32

/-- A 32-bit RGBA pixel: four 8-bit channels c[0]=r, c[1]=g, c[2]=b, c[3]=a. -/
structure RGBA32 where
  r : ℕ
  g : ℕ
  b : ℕ
  a : ℕ
  deriving DecidableEq

/-- A 3D LUT cube, indexed [blue][green][red] as in the source
(`rgbLUT[i][j][k]` with k = red index). -/
abbrev Lut := ℕ → ℕ → ℕ → RGBA32

/-- Per-axis index/weight computation of ApplyLUT (CBLuts.cpp:381-415) in the
default extrapolation mode (EXTRAPOLATE_LUT defined): given an 8-bit channel
value, returns (i0, i1, s): the two grid indices and the fixed-point blend
weight in eighths, after the boundary-policy adjustment. -/
def axisExtrap (c : ℕ) : ℤ × ℤ × ℤ :=
  let co : ℤ := (c : ℤ) + 4
  let i1 : ℤ := co.fdiv 8
  let i0 : ℤ := i1 - 1
  let s : ℤ := co.fmod 8
  if i0 < 0 then (i0 + 1, i1 + 1, s - 8)
  else if 32 ≤ i1 then (i0 - 1, i1 - 1, s + 8)
  else (i0, i1, s)

/-- Per-axis index/weight computation of ApplyLUT with EXTRAPOLATE_LUT not
defined (clamp mode): the out-of-range index is pinned to the nearest valid
index and the weight is left unchanged. -/
def axisClamp (c : ℕ) : ℤ × ℤ × ℤ :=
  let co : ℤ := (c : ℤ) + 4
  let i1 : ℤ := co.fdiv 8
  let i0 : ℤ := i1 - 1
  let s : ℤ := co.fmod 8
  if i0 < 0 then (i0 + 1, i1, s)
  else if 32 ≤ i1 then (i0, i1 - 1, s)
  else (i0, i1, s)

/-- The final clamp of ApplyLUT (CBLuts.cpp:418-420):
`ch < 0 ? 0 : ch > 255 ? 255 : ch`. -/
def clamp255 (x : ℤ) : ℤ := if x < 0 then 0 else if 255 < x then 255 else x

/-- The fixed-point blend of ApplyLUT (CBLuts.cpp:413-415):
`((8 - s) * c0 + s * c1) >> 3` on C ints (arithmetic shift = floor division). -/
def blend (s : ℤ) (x0 x1 : ℕ) : ℤ := ((8 - s) * (x0 : ℤ) + s * (x1 : ℤ)).fdiv 8

/-- One iteration of the ApplyLUT pixel loop (CBLuts.cpp:377-431) in the
default extrapolation mode: trilinear sampling of the cube with boundary
extrapolation, final [0,255] clamp, and alpha forced to 255. -/
def applyLUT1 (lut : Lut) (p : RGBA32) : RGBA32 :=
  let a0 := axisExtrap p.r
  let a1 := axisExtrap p.g
  let a2 := axisExtrap p.b
  let c0 := lut a2.1.toNat a1.1.toNat a0.1.toNat
  let c1 := lut a2.2.1.toNat a1.2.1.toNat a0.2.1.toNat
  { r := (clamp255 (blend a0.2.2 c0.r c1.r)).toNat
    g := (clamp255 (blend a1.2.2 c0.g c1.g)).toNat
    b := (clamp255 (blend a2.2.2 c0.b c1.b)).toNat
    a := 255 }

/-- One iteration of the ApplyLUT pixel loop with EXTRAPOLATE_LUT not defined
(clamp mode): indices pinned, no final clamp. -/
def applyLUT1Clamp (lut : Lut) (p : RGBA32) : RGBA32 :=
  let a0 := axisClamp p.r
  let a1 := axisClamp p.g
  let a2 := axisClamp p.b
  let c0 := lut a2.1.toNat a1.1.toNat a0.1.toNat
  let c1 := lut a2.2.1.toNat a1.2.1.toNat a0.2.1.toNat
  { r := (blend a0.2.2 c0.r c1.r).toNat
    g := (blend a1.2.2 c0.g c1.g).toNat
    b := (blend a2.2.2 c0.b c1.b).toNat
    a := 255 }

/-- One iteration of the ApplyLUTNoLerp pixel loop (CBLuts.cpp:434-444):
point sampling, the addressed cube entry is returned verbatim
(`dataOut[i] = rgbLUT[ci[2] >> 3][ci[1] >> 3][ci[0] >> 3]`). -/
def applyLUTNoLerp1 (lut : Lut) (p : RGBA32) : RGBA32 :=
  lut (p.b / 8) (p.g / 8) (p.r / 8)

/-- The cell-center pixel of grid cell (i, j, k): channel values
(k*8+4, j*8+4, i*8+4), alpha 255, as written by CreateIdentityLUT and used by
CreateLUT (scale = 256/kLUTSize = 8, offset = scale/2 = 4). -/
def centerPix (i j k : ℕ) : RGBA32 :=
  { r := k * 8 + 4, g := j * 8 + 4, b := i * 8 + 4, a := 255 }

/-- CreateIdentityLUT (CBLuts.cpp:349-365): the cube whose (i,j,k) entry is
the cell-center colour itself. -/
def createIdentityLUT : Lut := fun i j k => centerPix i j k

/-- The per-channel action of `applyLUT1` on the identity cube: because the
identity cube's channel m depends only on grid index m, each output channel of
`applyLUT1 createIdentityLUT p` is this function of the matching input
channel alone. -/
def idApply1 (c : ℕ) : ℕ :=
  let a := axisExtrap c
  (clamp255 (blend a.2.2 (a.1.toNat * 8 + 4) (a.2.1.toNat * 8 + 4))).toNat

theorem applyLUT1_identity_decouples (p : RGBA32) :
    applyLUT1 createIdentityLUT p =
      { r := idApply1 p.r, g := idApply1 p.g, b := idApply1 p.b, a := 255 } := rfl

theorem idApply1_within_one : ∀ c : ℕ, c < 256 →
    ((idApply1 c : ℤ) - (c : ℤ)).natAbs ≤ 1 := by decide

theorem axisExtrap_bounds : ∀ c : ℕ, c < 256 →
    0 ≤ (axisExtrap c).1 ∧ (axisExtrap c).1 < 32 ∧
    0 ≤ (axisExtrap c).2.1 ∧ (axisExtrap c).2.1 < 32 := by decide

theorem clamp255_toNat_le (x : ℤ) : (clamp255 x).toNat ≤ 255 := by
  unfold clamp255
  split_ifs <;> omega

/-- C2: LUT identity round trip: building the cube with CreateIdentityLUT and
then running ApplyLUT reproduces every possible 8-bit input pixel to within
±1 level in each of the three colour channels. -/
theorem C2_lut_identity_roundtrip (p : RGBA32)
    (hr : p.r < 256) (hg : p.g < 256) (hb : p.b < 256) :
    (((applyLUT1 createIdentityLUT p).r : ℤ) - (p.r : ℤ)).natAbs ≤ 1 ∧
    (((applyLUT1 createIdentityLUT p).g : ℤ) - (p.g : ℤ)).natAbs ≤ 1 ∧
    (((applyLUT1 createIdentityLUT p).b : ℤ) - (p.b : ℤ)).natAbs ≤ 1 := by
  rw [applyLUT1_identity_decouples]
  exact ⟨idApply1_within_one p.r hr, idApply1_within_one p.g hg,
    idApply1_within_one p.b hb⟩

/-- C2 witness: the round-trip bound evaluated at the concrete pixel
(7, 200, 255). -/
theorem C2_lut_identity_roundtrip_witness :
    (((applyLUT1 createIdentityLUT ⟨7, 200, 255, 255⟩).r : ℤ) - 7).natAbs ≤ 1 ∧
    (((applyLUT1 createIdentityLUT ⟨7, 200, 255, 255⟩).g : ℤ) - 200).natAbs ≤ 1 ∧
    (((applyLUT1 createIdentityLUT ⟨7, 200, 255, 255⟩).b : ℤ) - 255).natAbs ≤ 1 :=
  C2_lut_identity_roundtrip ⟨7, 200, 255, 255⟩ (by decide) (by decide) (by decide)

/-- C3: sampler index safety: for every 8-bit input pixel and each of the
three channels the grid indices computed after the boundary-policy adjustment
lie in [0, 32), and the blended channel values after the extrapolation clamp
lie in [0, 255], for any cube. -/
theorem C3_sampler_index_safety (lut : Lut) (p : RGBA32)
    (hr : p.r < 256) (hg : p.g < 256) (hb : p.b < 256) :
    (0 ≤ (axisExtrap p.r).1 ∧ (axisExtrap p.r).1 < 32 ∧
     0 ≤ (axisExtrap p.r).2.1 ∧ (axisExtrap p.r).2.1 < 32) ∧
    (0 ≤ (axisExtrap p.g).1 ∧ (axisExtrap p.g).1 < 32 ∧
     0 ≤ (axisExtrap p.g).2.1 ∧ (axisExtrap p.g).2.1 < 32) ∧
    (0 ≤ (axisExtrap p.b).1 ∧ (axisExtrap p.b).1 < 32 ∧
     0 ≤ (axisExtrap p.b).2.1 ∧ (axisExtrap p.b).2.1 < 32) ∧
    ((applyLUT1 lut p).r ≤ 255 ∧ (applyLUT1 lut p).g ≤ 255 ∧
     (applyLUT1 lut p).b ≤ 255) :=
  ⟨axisExtrap_bounds p.r hr, axisExtrap_bounds p.g hg, axisExtrap_bounds p.b hb,
    clamp255_toNat_le _, clamp255_toNat_le _, clamp255_toNat_le _⟩

/-- C3 witness: index and channel safety evaluated at the concrete pixel
(0, 128, 255) against the identity cube. -/
theorem C3_sampler_index_safety_witness :
    (0 ≤ (axisExtrap 0).1 ∧ (axisExtrap 0).1 < 32 ∧
     0 ≤ (axisExtrap 0).2.1 ∧ (axisExtrap 0).2.1 < 32) ∧
    (0 ≤ (axisExtrap 128).1 ∧ (axisExtrap 128).1 < 32 ∧
     0 ≤ (axisExtrap 128).2.1 ∧ (axisExtrap 128).2.1 < 32) ∧
    (0 ≤ (axisExtrap 255).1 ∧ (axisExtrap 255).1 < 32 ∧
     0 ≤ (axisExtrap 255).2.1 ∧ (axisExtrap 255).2.1 < 32) ∧
    ((applyLUT1 createIdentityLUT ⟨0, 128, 255, 99⟩).r ≤ 255 ∧
     (applyLUT1 createIdentityLUT ⟨0, 128, 255, 99⟩).g ≤ 255 ∧
     (applyLUT1 createIdentityLUT ⟨0, 128, 255, 99⟩).b ≤ 255) :=
  C3_sampler_index_safety createIdentityLUT ⟨0, 128, 255, 99⟩
    (by decide) (by decide) (by decide)

theorem axisExtrap_center (k : ℕ) (hk : k ≤ 30) :
    axisExtrap (k * 8 + 4) = ((k : ℤ), ((k + 1 : ℕ) : ℤ), 0) := by
  simp only [axisExtrap]
  have hd : (((k * 8 + 4 : ℕ) : ℤ) + 4).fdiv 8 = (k : ℤ) + 1 := by
    rw [Int.fdiv_eq_ediv _ (by norm_num)]
    push_cast
    omega
  have hm : (((k * 8 + 4 : ℕ) : ℤ) + 4).fmod 8 = 0 := by
    rw [Int.fmod_eq_emod _ (by norm_num)]
    push_cast
    omega
  rw [hd, hm]
  rw [if_neg (by omega), if_neg (by omega)]
  simp only [Prod.mk.injEq]
  refine ⟨by omega, by push_cast; ring, trivial⟩

theorem blend_zero (x0 x1 : ℕ) : blend 0 x0 x1 = (x0 : ℤ) := by
  unfold blend
  rw [Int.fdiv_eq_ediv _ (by norm_num)]
  omega

theorem clamp255_byte (x : ℕ) (h : x ≤ 255) : (clamp255 (x : ℤ)).toNat = x := by
  unfold clamp255
  split_ifs <;> omega

/-- Core retrieval fact: at a cell-center pixel whose grid indices are all at
most 30, trilinear sampling returns the addressed entry's colour channels
exactly (weight 0 on each axis, clamp a no-op on byte-valued entries). -/
theorem applyLUT1_center (lut : Lut)
    (hbound : ∀ x y z : ℕ, (lut x y z).r ≤ 255 ∧ (lut x y z).g ≤ 255 ∧
      (lut x y z).b ≤ 255)
    (i j k : ℕ) (hi : i ≤ 30) (hj : j ≤ 30) (hk : k ≤ 30) :
    applyLUT1 lut (centerPix i j k) =
      { r := (lut i j k).r, g := (lut i j k).g, b := (lut i j k).b, a := 255 } := by
  simp only [applyLUT1, centerPix, axisExtrap_center k hk, axisExtrap_center j hj,
    axisExtrap_center i hi, Int.toNat_natCast, blend_zero]
  simp only [clamp255_byte _ (hbound i j k).1, clamp255_byte _ (hbound i j k).2.1,
    clamp255_byte _ (hbound i j k).2.2]

/-- C10: ApplyLUTNoLerp returns the addressed cube entry verbatim, including
its stored alpha byte, while ApplyLUT forces output alpha to 255; hence
ApplyLUTNoLerp's output alpha is 255 exactly when the addressed entry's alpha
is 255. -/
theorem C10_applyLUTNoLerp_verbatim (lut : Lut) (p : RGBA32) :
    applyLUTNoLerp1 lut p = lut (p.b / 8) (p.g / 8) (p.r / 8) ∧
    (applyLUT1 lut p).a = 255 ∧
    ((applyLUTNoLerp1 lut p).a = 255 ↔
      (lut (p.b / 8) (p.g / 8) (p.r / 8)).a = 255) :=
  ⟨rfl, rfl, Iff.rfl⟩


/-! Real-valued colour model: `float` is embedded as `ℝ`, `powf` as
`Real.rpow`; matrix constants carry the exact decimal values of the source. -/

/-- A 3-component float colour vector (CBLuts.h). -/
@[ext]
structure Vec3f where
  x : ℝ
  y : ℝ
  z : ℝ

/-- A 3x3 matrix as three row vectors (CBLuts.h). -/
structure Mat3f where
  x : Vec3f
  y : Vec3f
  z : Vec3f

/-- The deficiency type enum tLMS = { kL, kM, kS } (CBLuts.h). -/
inductive tLMS
  | kL
  | kM
  | kS
  deriving DecidableEq

/-- elt(v, i): the i-th component of a vector (CBLuts.cpp:63-65). -/
def elt (v : Vec3f) : tLMS → ℝ
  | .kL => v.x
  | .kM => v.y
  | .kS => v.z

/-- Writing through the `float& elt(Vec3f&, int)` reference: replace the i-th
component. -/
def setElt (v : Vec3f) : tLMS → ℝ → Vec3f
  | .kL, t => ⟨t, v.y, v.z⟩
  | .kM, t => ⟨v.x, t, v.z⟩
  | .kS, t => ⟨v.x, v.y, t⟩

/-- row(m, i) (CBLuts.cpp:66). -/
def row (m : Mat3f) : tLMS → Vec3f
  | .kL => m.x
  | .kM => m.y
  | .kS => m.z

/-- col(m, i) (CBLuts.cpp:67). -/
def col (m : Mat3f) (t : tLMS) : Vec3f := ⟨elt m.x t, elt m.y t, elt m.z t⟩

/-- Component-wise vector sum (CBLuts.cpp:69). -/
def vadd (a b : Vec3f) : Vec3f := ⟨a.x + b.x, a.y + b.y, a.z + b.z⟩

/-- Component-wise vector difference (CBLuts.cpp:70). -/
def vsub (a b : Vec3f) : Vec3f := ⟨a.x - b.x, a.y - b.y, a.z - b.z⟩

/-- Scalar times vector (CBLuts.cpp:71). -/
def vmul (s : ℝ) (a : Vec3f) : Vec3f := ⟨s * a.x, s * a.y, s * a.z⟩

/-- Dot product (CBLuts.cpp:73). -/
def dot (a b : Vec3f) : ℝ := a.x * b.x + a.y * b.y + a.z * b.z

/-- Matrix times vector, rows dotted with the vector (CBLuts.cpp:76). -/
def mulMV (m : Mat3f) (v : Vec3f) : Vec3f := ⟨dot m.x v, dot m.y v, dot m.z v⟩

/-- kLMSFromRGB (CBLuts.cpp:26-31). -/
def kLMSFromRGB : Mat3f :=
  ⟨⟨0.31399022, 0.63951294, 0.04649755⟩,
   ⟨0.15537241, 0.75789446, 0.08670142⟩,
   ⟨0.01775239, 0.10944209, 0.87256922⟩⟩

/-- kRGBFromLMS (CBLuts.cpp:33-38). -/
def kRGBFromLMS : Mat3f :=
  ⟨⟨5.47221206, -4.64196010, 0.16963708⟩,
   ⟨-1.1252419, 2.29317094, -0.16789520⟩,
   ⟨0.02980165, -0.19318073, 1.16364789⟩⟩

/-- kLMSProtanope (CBLuts.cpp:40-45). -/
def kLMSProtanope : Mat3f :=
  ⟨⟨0, 1.05118294, -0.05116099⟩,
   ⟨0, 1, 0⟩,
   ⟨0, 0, 1⟩⟩

/-- kLMSDeuteranope (CBLuts.cpp:47-52). -/
def kLMSDeuteranope : Mat3f :=
  ⟨⟨1, 0, 0⟩,
   ⟨0.9513092, 0, 0.04866992⟩,
   ⟨0, 0, 1⟩⟩

/-- kLMSTritanope (CBLuts.cpp:54-59). -/
def kLMSTritanope : Mat3f :=
  ⟨⟨1, 0, 0⟩,
   ⟨0, 1, 0⟩,
   ⟨-0.86744736, 1.86727089, 0⟩⟩

/-- kLMSFromRGBV, the Viénot-calibrated conversion used by Daltonise
(CBLuts.cpp:88-93). -/
def kLMSFromRGBV : Mat3f :=
  ⟨⟨17.8824, 43.5161, 4.11935⟩,
   ⟨3.45565, 27.1554, 3.86714⟩,
   ⟨0.0299566, 0.184309, 1.46709⟩⟩

/-- kRGBFromLMSV (CBLuts.cpp:95-100). -/
def kRGBFromLMSV : Mat3f :=
  ⟨⟨0.080944447900, -0.13050440900, 0.116721066⟩,
   ⟨-0.010248533500, 0.05401932660, -0.113614708⟩,
   ⟨-0.000365296938, -0.00412161469, 0.693511405⟩⟩

/-- kLMSProtanopeV (CBLuts.cpp:103-108). -/
def kLMSProtanopeV : Mat3f :=
  ⟨⟨0, 2.02344, -2.52581⟩,
   ⟨0, 1, 0⟩,
   ⟨0, 0, 1⟩⟩

/-- kLMSDeuteranopeV (CBLuts.cpp:110-115). -/
def kLMSDeuteranopeV : Mat3f :=
  ⟨⟨1, 0, 0⟩,
   ⟨0.494207, 0, 1.24827⟩,
   ⟨0, 0, 1⟩⟩

/-- kLMSTritanopeV (CBLuts.cpp:117-122). -/
def kLMSTritanopeV : Mat3f :=
  ⟨⟨1, 0, 0⟩,
   ⟨0, 1, 0⟩,
   ⟨-0.395913, 0.801109, 0⟩⟩

/-- kDaltonErrorToDeltaP, the Fidaner error-to-delta matrix for protanopia
(CBLuts.cpp:132-137). -/
def kDaltonErrorToDeltaP : Mat3f :=
  ⟨⟨0, 0, 0⟩,
   ⟨0.7, 1, 0⟩,
   ⟨0.7, 0, 1⟩⟩

/-- kDaltonErrorToDeltaD (CBLuts.cpp:138-143). -/
def kDaltonErrorToDeltaD : Mat3f :=
  ⟨⟨1, 0.7, 0⟩,
   ⟨0, 0, 0⟩,
   ⟨0, 0.7, 1⟩⟩

/-- kDaltonErrorToDeltaT (CBLuts.cpp:144-149). -/
def kDaltonErrorToDeltaT : Mat3f :=
  ⟨⟨1, 0, 0.7⟩,
   ⟨0, 1, 0.7⟩,
   ⟨0, 0, 0⟩⟩

/-- kLMSSimulate, the P/D/T simulations amalgamated into one matrix
(CBLuts.cpp:186-191). -/
def kLMSSimulate : Mat3f :=
  ⟨⟨0, 1.05118294, -0.05116099⟩,
   ⟨0.9513092, 0, 0.04866992⟩,
   ⟨-0.86744736, 1.86727089, 0⟩⟩

/-- kNCDeltaRecip, trans(1/kLMSSimulate), used by Correct
(CBLuts.cpp:222-227). -/
def kNCDeltaRecip : Mat3f :=
  ⟨⟨0, 1.05118299, -1.15280771⟩,
   ⟨0.951309144, 0, 0.535540938⟩,
   ⟨-19.5461426, 20.5465717, 0⟩⟩

/-- SimulateV (CBLuts.cpp:151-156): the Viénot-space simulation used inside
Daltonise. -/
def SimulateV (rgb : Vec3f) (lmsTransform : Mat3f) : Vec3f :=
  mulMV kRGBFromLMSV (mulMV lmsTransform (mulMV kLMSFromRGBV rgb))

/-- Daltonise (CBLuts.cpp:158-182): Fidaner error redistribution; the delta
between the colour and its simulated version, scaled by strength, is pushed
through the per-deficiency error-to-delta matrix and added back. -/
def Daltonise (rgb : Vec3f) (lmsType : tLMS) (strength : ℝ) : Vec3f :=
  match lmsType with
  | .kL => vadd rgb (mulMV kDaltonErrorToDeltaP
      (vmul strength (vsub rgb (SimulateV rgb kLMSProtanopeV))))
  | .kM => vadd rgb (mulMV kDaltonErrorToDeltaD
      (vmul strength (vsub rgb (SimulateV rgb kLMSDeuteranopeV))))
  | .kS => vadd rgb (mulMV kDaltonErrorToDeltaT
      (vmul strength (vsub rgb (SimulateV rgb kLMSTritanopeV))))

/-- Simulate (CBLuts.cpp:244-256): replace the affected LMS channel by its
strength-blend with the kLMSSimulate row (a combination of the other two
channels). -/
def Simulate (rgb : Vec3f) (lmsType : tLMS) (strength : ℝ) : Vec3f :=
  let lms := mulMV kLMSFromRGB rgb
  let eltx := elt lms lmsType
  let simElt := dot (row kLMSSimulate lmsType) lms
  mulMV kRGBFromLMS (setElt lms lmsType (eltx + strength * (simElt - eltx)))

/-- Correct (CBLuts.cpp:258-280): strength-dependent blend of redistribution
(weight strength²) and brightening (weight 1 - strength) applied to the
affected-channel error in LMS space. -/
def Correct (rgb : Vec3f) (lmsType : tLMS) (strength : ℝ) : Vec3f :=
  let lms := mulMV kLMSFromRGB rgb
  let orgElt := elt lms lmsType
  let simElt := dot (row kLMSSimulate lmsType) lms
  let error := strength * (orgElt - simElt)
  let mc := strength * strength
  let ms := 1 - strength
  let amount := elt ⟨-0.25, -0.3, -0.07⟩ lmsType
  let correct := setElt (vmul (mc * amount) (col kNCDeltaRecip lmsType)) lmsType (ms * 2)
  mulMV kRGBFromLMS (vadd lms (vmul error correct))

/-- kGamma = 2.2 (CBLuts.cpp:287); as an exact rational, 11/5. -/
def kGamma : ℝ := 2.2

/-- Component-wise power, `pow(Vec3f, float)` (CBLuts.cpp:74). -/
noncomputable def powv (v : Vec3f) (p : ℝ) : Vec3f := ⟨v.x ^ p, v.y ^ p, v.z ^ p⟩

/-- ToU8 (CBLuts.cpp:289-297): round-to-nearest 8-bit conversion with
saturation at 0 and 255. -/
noncomputable def ToU8 (f : ℝ) : ℕ :=
  if f ≤ 0 then 0 else if 1 ≤ f then 255 else ⌊f * 255 + 1 / 2⌋₊

/-- ToU8u (CBLuts.cpp:299-307): truncating 0-256 variant used for LUT
construction, with the same saturation tests. -/
noncomputable def ToU8u (f : ℝ) : ℕ :=
  if f ≤ 0 then 0 else if 1 ≤ f then 255 else ⌊f * 256⌋₊

/-- ToRGBA32 (CBLuts.cpp:310-321): gamma-encode then round-to-nearest pack;
alpha set to 255. -/
noncomputable def ToRGBA32 (c : Vec3f) : RGBA32 :=
  let d := powv c (1 / kGamma)
  { r := ToU8 d.x, g := ToU8 d.y, b := ToU8 d.z, a := 255 }

/-- ToRGBA32u (CBLuts.cpp:323-334): gamma-encode then truncating pack; alpha
set to 255. -/
noncomputable def ToRGBA32u (c : Vec3f) : RGBA32 :=
  let d := powv c (1 / kGamma)
  { r := ToU8u d.x, g := ToU8u d.y, b := ToU8u d.z, a := 255 }

/-- FromRGBA32 (CBLuts.cpp:336-340): divide by 255 then gamma-decode; no
clamping of the packed input. -/
noncomputable def FromRGBA32 (p : RGBA32) : Vec3f :=
  powv ⟨(p.r : ℝ) / 255, (p.g : ℝ) / 255, (p.b : ℝ) / 255⟩ kGamma

/-- FromRGBA32u (CBLuts.cpp:342-346): divide by 256 then gamma-decode; no
clamping of the packed input. -/
noncomputable def FromRGBA32u (p : RGBA32) : Vec3f :=
  powv ⟨(p.r : ℝ) / 256, (p.g : ℝ) / 256, (p.b : ℝ) / 256⟩ kGamma

/-- One iteration of the direct Transform path (CBLutGen.cpp:136-146):
FromRGBA32, apply the transform, ToRGBA32. -/
noncomputable def Transform1 (xform : Vec3f → Vec3f) (p : RGBA32) : RGBA32 :=
  ToRGBA32 (xform (FromRGBA32 p))

/-- CreateLUT (CBLutGen.cpp:116-134): the cube whose (i,j,k) entry is the
transform evaluated at the cell-center colour, unpacked and re-packed with
the truncating (u) convention. -/
noncomputable def createLUT (xform : Vec3f → Vec3f) : Lut := fun i j k =>
  ToRGBA32u (xform (FromRGBA32u (centerPix i j k)))

/-- The classical dichromat projection matrix for each deficiency type. -/
def classicalProjection : tLMS → Mat3f
  | .kL => kLMSProtanope
  | .kM => kLMSDeuteranope
  | .kS => kLMSTritanope

/-- C6: strength one reproduces the classical projections: Simulate at
strength 1 equals kRGBFromLMS * (M_d * (kLMSFromRGB * rgb)) for the published
matrix M_d of the deficiency, and the per-deficiency row of the amalgamated
kLMSSimulate matrix equals the affected row of M_d. -/
theorem C6_strength_one_classical (d : tLMS) (rgb : Vec3f) :
    Simulate rgb d 1 =
      mulMV kRGBFromLMS (mulMV (classicalProjection d) (mulMV kLMSFromRGB rgb)) ∧
    row kLMSSimulate d = row (classicalProjection d) d := by
  cases d <;>
    exact ⟨by ext <;> simp [Simulate, classicalProjection, mulMV, dot, row, elt,
      setElt, kLMSFromRGB, kRGBFromLMS, kLMSSimulate, kLMSProtanope,
      kLMSDeuteranope, kLMSTritanope], rfl⟩

/-- The per-deficiency Fidaner error-to-delta matrix. -/
def daltonErrorToDelta : tLMS → Mat3f
  | .kL => kDaltonErrorToDeltaP
  | .kM => kDaltonErrorToDeltaD
  | .kS => kDaltonErrorToDeltaT

/-- C7: Daltonise never feeds the affected channel's error back into itself:
the affected row of the per-deficiency error-to-delta matrix is zero (in
particular its diagonal entry), so the affected channel of the output equals
the affected channel of the input for every colour and strength. -/
theorem C7_daltonise_affected_preserved (d : tLMS) (rgb : Vec3f) (strength : ℝ) :
    elt (row (daltonErrorToDelta d) d) d = 0 ∧
    row (daltonErrorToDelta d) d = ⟨0, 0, 0⟩ ∧
    elt (Daltonise rgb d strength) d = elt rgb d := by
  cases d <;>
    exact ⟨rfl, rfl, by simp [Daltonise, daltonErrorToDelta, SimulateV, mulMV,
      dot, vadd, vsub, vmul, elt, kDaltonErrorToDeltaP, kDaltonErrorToDeltaD,
      kDaltonErrorToDeltaT]⟩

theorem Simulate_strength_zero (c : Vec3f) (d : tLMS) :
    Simulate c d 0 = mulMV kRGBFromLMS (mulMV kLMSFromRGB c) := by
  cases d <;> (ext <;> simp [Simulate, mulMV, dot, row, elt, setElt])

theorem Correct_strength_zero (c : Vec3f) (d : tLMS) :
    Correct c d 0 = mulMV kRGBFromLMS (mulMV kLMSFromRGB c) := by
  cases d <;>
    (ext <;> simp [Correct, mulMV, dot, row, col, elt, setElt, vadd, vmul])

theorem Daltonise_strength_zero (c : Vec3f) (d : tLMS) : Daltonise c d 0 = c := by
  cases d <;>
    (ext <;> simp [Daltonise, SimulateV, mulMV, dot, vadd, vsub, vmul])

/-- The product kRGBFromLMS * kLMSFromRGB is not exactly the identity; on the
unit cube its action moves each channel by at most 1/100000. -/
theorem lms_roundtrip_near_identity (c : Vec3f)
    (hx0 : 0 ≤ c.x) (hx1 : c.x ≤ 1) (hy0 : 0 ≤ c.y) (hy1 : c.y ≤ 1)
    (hz0 : 0 ≤ c.z) (hz1 : c.z ≤ 1) :
    |(mulMV kRGBFromLMS (mulMV kLMSFromRGB c)).x - c.x| ≤ 1 / 100000 ∧
    |(mulMV kRGBFromLMS (mulMV kLMSFromRGB c)).y - c.y| ≤ 1 / 100000 ∧
    |(mulMV kRGBFromLMS (mulMV kLMSFromRGB c)).z - c.z| ≤ 1 / 100000 := by
  simp only [mulMV, dot, kLMSFromRGB, kRGBFromLMS]
  refine ⟨?_, ?_, ?_⟩ <;> (rw [abs_le]; constructor <;> nlinarith)

/-- C5: strength zero is the identity: for every deficiency type and every
colour in the unit cube, Simulate and Correct at strength 0 return the colour
to within 1/100000 per channel (the kRGBFromLMS * kLMSFromRGB round trip),
and Daltonise at strength 0 returns it exactly. -/
theorem C5_strength_zero_identity (d : tLMS) (c : Vec3f)
    (hx0 : 0 ≤ c.x) (hx1 : c.x ≤ 1) (hy0 : 0 ≤ c.y) (hy1 : c.y ≤ 1)
    (hz0 : 0 ≤ c.z) (hz1 : c.z ≤ 1) :
    (|(Simulate c d 0).x - c.x| ≤ 1 / 100000 ∧
     |(Simulate c d 0).y - c.y| ≤ 1 / 100000 ∧
     |(Simulate c d 0).z - c.z| ≤ 1 / 100000) ∧
    Daltonise c d 0 = c ∧
    (|(Correct c d 0).x - c.x| ≤ 1 / 100000 ∧
     |(Correct c d 0).y - c.y| ≤ 1 / 100000 ∧
     |(Correct c d 0).z - c.z| ≤ 1 / 100000) := by
  rw [Simulate_strength_zero, Correct_strength_zero]
  exact ⟨lms_roundtrip_near_identity c hx0 hx1 hy0 hy1 hz0 hz1,
    Daltonise_strength_zero c d,
    lms_roundtrip_near_identity c hx0 hx1 hy0 hy1 hz0 hz1⟩

/-- C5 witness: the strength-zero identity evaluated at mid-ish grey
(1/2, 1/2, 1/2) for the M deficiency. -/
theorem C5_strength_zero_identity_witness :
    Daltonise ⟨1/2, 1/2, 1/2⟩ tLMS.kM 0 = ⟨1/2, 1/2, 1/2⟩ ∧
    |(Simulate ⟨1/2, 1/2, 1/2⟩ tLMS.kM 0).y - 1/2| ≤ 1 / 100000 :=
  ⟨(C5_strength_zero_identity tLMS.kM ⟨1/2, 1/2, 1/2⟩ (by norm_num) (by norm_num)
      (by norm_num) (by norm_num) (by norm_num) (by norm_num)).2.1,
   (C5_strength_zero_identity tLMS.kM ⟨1/2, 1/2, 1/2⟩ (by norm_num) (by norm_num)
      (by norm_num) (by norm_num) (by norm_num) (by norm_num)).1.2.1⟩

theorem rpow_gamma_inv_between (p : ℝ) (hp : 0 < p) :
    min p 1 ≤ p ^ (1 / kGamma : ℝ) ∧ p ^ (1 / kGamma : ℝ) ≤ max p 1 := by
  rcases le_or_lt 1 p with h | h
  · constructor
    · exact le_trans (min_le_right p 1) (Real.one_le_rpow h (by norm_num [kGamma]))
    · have h2 : p ^ (1 / kGamma : ℝ) ≤ p ^ (1 : ℝ) :=
        Real.rpow_le_rpow_of_exponent_le h (by norm_num [kGamma])
      rw [Real.rpow_one] at h2
      exact le_trans h2 (le_max_left p 1)
  · constructor
    · have h2 : p ^ (1 : ℝ) ≤ p ^ (1 / kGamma : ℝ) :=
        Real.rpow_le_rpow_of_exponent_ge hp h.le (by norm_num [kGamma])
      rw [Real.rpow_one] at h2
      exact le_trans (min_le_left p 1) h2
    · exact le_trans (Real.rpow_le_one hp.le h.le (by norm_num [kGamma]))
        (le_max_right p 1)

/-- The linear value of mid-grey 128: (128/255)^2.2. -/
noncomputable def grey128lin : ℝ := ((128 : ℝ) / 255) ^ kGamma

/-- ToU8 recovers 128 from any near-unit multiple of the linear mid-grey
value: the gamma exponents cancel exactly on the (128/255) factor and the
multiplier's 1/2.2 power stays within the rounding window of 128. -/
theorem ToU8_grey128 (c0 : ℝ) (h1 : 255 / 256 ≤ c0) (h2 : c0 < 257 / 256) :
    ToU8 ((c0 * grey128lin) ^ (1 / kGamma : ℝ)) = 128 := by
  have hc0 : (0 : ℝ) < c0 := by linarith
  have hbase : (0 : ℝ) ≤ grey128lin := Real.rpow_nonneg (by norm_num) _
  have hmul : (c0 * grey128lin) ^ (1 / kGamma : ℝ)
      = c0 ^ (1 / kGamma : ℝ) * grey128lin ^ (1 / kGamma : ℝ) :=
    Real.mul_rpow hc0.le hbase
  have hrt : grey128lin ^ (1 / kGamma : ℝ) = (128 : ℝ) / 255 := by
    unfold grey128lin
    rw [← Real.rpow_mul (by norm_num : (0 : ℝ) ≤ 128 / 255)]
    norm_num [kGamma]
  have hb := rpow_gamma_inv_between c0 hc0
  have htlo : (255 : ℝ) / 256 ≤ c0 ^ (1 / kGamma : ℝ) :=
    le_trans (le_min h1 (by norm_num)) hb.1
  have hthi : c0 ^ (1 / kGamma : ℝ) < 257 / 256 :=
    lt_of_le_of_lt hb.2 (max_lt h2 (by norm_num))
  rw [hmul, hrt]
  unfold ToU8
  rw [if_neg (by push_neg; positivity), if_neg (by push_neg; nlinarith)]
  have harg : (c0 ^ (1 / kGamma : ℝ) * (128 / 255) * 255 + 1 / 2 : ℝ)
      = 128 * c0 ^ (1 / kGamma : ℝ) + 1 / 2 := by ring
  rw [harg, Nat.floor_eq_iff (by positivity)]
  constructor
  · push_cast
    linarith
  · push_cast
    linarith

theorem FromRGBA32_grey :
    FromRGBA32 ⟨128, 128, 128, 255⟩ = ⟨grey128lin, grey128lin, grey128lin⟩ := by
  unfold FromRGBA32 powv grey128lin
  norm_num

theorem transform_grey_sim1_green :
    (Transform1 (fun c => Simulate c tLMS.kM 1) ⟨128, 128, 128, 255⟩).g = 128 := by
  have h1 : (Transform1 (fun c => Simulate c tLMS.kM 1) ⟨128, 128, 128, 255⟩).g
      = ToU8 ((Simulate (FromRGBA32 ⟨128, 128, 128, 255⟩) tLMS.kM 1).y
          ^ (1 / kGamma : ℝ)) := rfl
  rw [h1, FromRGBA32_grey]
  have h2 : (Simulate ⟨grey128lin, grey128lin, grey128lin⟩ tLMS.kM 1).y
      = (12500000113804030698873 / 12500000000000000000000 : ℝ) * grey128lin := by
    simp only [Simulate, mulMV, dot, row, elt, setElt, kLMSFromRGB, kRGBFromLMS,
      kLMSSimulate]
    ring
  rw [h2]
  exact ToU8_grey128 _ (by norm_num) (by norm_num)

theorem transform_grey_sim0 :
    Transform1 (fun c => Simulate c tLMS.kM 0) ⟨128, 128, 128, 255⟩
      = ⟨128, 128, 128, 255⟩ := by
  have h1 : Transform1 (fun c => Simulate c tLMS.kM 0) ⟨128, 128, 128, 255⟩
      = ToRGBA32 (mulMV kRGBFromLMS (mulMV kLMSFromRGB
          (FromRGBA32 ⟨128, 128, 128, 255⟩))) := by
    simp only [Transform1]
    rw [Simulate_strength_zero]
  rw [h1, FromRGBA32_grey]
  have hx : (mulMV kRGBFromLMS (mulMV kLMSFromRGB
      ⟨grey128lin, grey128lin, grey128lin⟩)).x
      = (625000022864581 / 625000000000000 : ℝ) * grey128lin := by
    simp only [mulMV, dot, kLMSFromRGB, kRGBFromLMS]
    ring
  have hy : (mulMV kRGBFromLMS (mulMV kLMSFromRGB
      ⟨grey128lin, grey128lin, grey128lin⟩)).y
      = (2499999995658759 / 2500000000000000 : ℝ) * grey128lin := by
    simp only [mulMV, dot, kLMSFromRGB, kRGBFromLMS]
    ring
  have hz : (mulMV kRGBFromLMS (mulMV kLMSFromRGB
      ⟨grey128lin, grey128lin, grey128lin⟩)).z
      = (1249999983654641 / 1250000000000000 : ℝ) * grey128lin := by
    simp only [mulMV, dot, kLMSFromRGB, kRGBFromLMS]
    ring
  show (⟨ToU8 _, ToU8 _, ToU8 _, 255⟩ : RGBA32) = _
  rw [RGBA32.mk.injEq]  -- might need simp
  refine ⟨?_, ?_, ?_, rfl⟩
  · rw [show (powv (mulMV kRGBFromLMS (mulMV kLMSFromRGB
      ⟨grey128lin, grey128lin, grey128lin⟩)) (1 / kGamma)).x
      = (mulMV kRGBFromLMS (mulMV kLMSFromRGB
      ⟨grey128lin, grey128lin, grey128lin⟩)).x ^ (1 / kGamma : ℝ) from rfl, hx]
    exact ToU8_grey128 _ (by norm_num) (by norm_num)
  · rw [show (powv (mulMV kRGBFromLMS (mulMV kLMSFromRGB
      ⟨grey128lin, grey128lin, grey128lin⟩)) (1 / kGamma)).y
      = (mulMV kRGBFromLMS (mulMV kLMSFromRGB
      ⟨grey128lin, grey128lin, grey128lin⟩)).y ^ (1 / kGamma : ℝ) from rfl, hy]
    exact ToU8_grey128 _ (by norm_num) (by norm_num)
  · rw [show (powv (mulMV kRGBFromLMS (mulMV kLMSFromRGB
      ⟨grey128lin, grey128lin, grey128lin⟩)) (1 / kGamma)).z
      = (mulMV kRGBFromLMS (mulMV kLMSFromRGB
      ⟨grey128lin, grey128lin, grey128lin⟩)).z ^ (1 / kGamma : ℝ) from rfl, hz]
    exact ToU8_grey128 _ (by norm_num) (by norm_num)

/-- C8 (amended): mid-grey deuteranope scenario: for input RGB
(128,128,128,255), M deficiency and strength 1, the Simulate pipeline leaves
the green channel at exactly 128 (grey lies on the neutral axis the
simulation preserves), and at strength 0 all channels stay at 128. -/
theorem C8_midgrey_deuteranope :
    (Transform1 (fun c => Simulate c tLMS.kM 1) ⟨128, 128, 128, 255⟩).g = 128 ∧
    Transform1 (fun c => Simulate c tLMS.kM 0) ⟨128, 128, 128, 255⟩
      = ⟨128, 128, 128, 255⟩ :=
  ⟨transform_grey_sim1_green, transform_grey_sim0⟩

/-- C8 counterexample: at the claimed input the simulated green channel does
NOT differ from 128 by more than 10 levels — it differs by 0. -/
theorem C8_midgrey_deuteranope_cex :
    ¬ (10 < (((Transform1 (fun c => Simulate c tLMS.kM 1)
        ⟨128, 128, 128, 255⟩).g : ℤ) - 128).natAbs) := by
  rw [transform_grey_sim1_green]
  decide

theorem gamma_encode_zero : ((0 : ℝ) ^ (1 / kGamma : ℝ)) = 0 :=
  Real.zero_rpow (by norm_num [kGamma])

theorem gamma_encode_ge_one (x : ℝ) (hx : 1 ≤ x) : 1 ≤ x ^ (1 / kGamma : ℝ) :=
  Real.one_le_rpow hx (by norm_num [kGamma])

theorem ToU8_zero_of_nonpos (f : ℝ) (h : f ≤ 0) : ToU8 f = 0 := by
  unfold ToU8
  rw [if_pos h]

theorem ToU8u_zero_of_nonpos (f : ℝ) (h : f ≤ 0) : ToU8u f = 0 := by
  unfold ToU8u
  rw [if_pos h]

theorem ToU8_255_of_ge_one (f : ℝ) (h : 1 ≤ f) : ToU8 f = 255 := by
  unfold ToU8
  rw [if_neg (by linarith), if_pos h]

theorem ToU8u_255_of_ge_one (f : ℝ) (h : 1 ≤ f) : ToU8u f = 255 := by
  unfold ToU8u
  rw [if_neg (by linarith), if_pos h]

theorem ToU8_le_255 (f : ℝ) : ToU8 f ≤ 255 := by
  unfold ToU8
  split_ifs with h1 h2
  · omega
  · omega
  · have : f * 255 + 1 / 2 < 256 := by push_neg at h1 h2; nlinarith
    have hfloor : ⌊f * 255 + 1 / 2⌋₊ < 256 := by
      rw [Nat.floor_lt (by push_neg at h1; positivity)]
      exact_mod_cast this
    omega

theorem ToU8u_le_255 (f : ℝ) : ToU8u f ≤ 255 := by
  unfold ToU8u
  split_ifs with h1 h2
  · omega
  · omega
  · have : f * 256 < 256 := by push_neg at h1 h2; nlinarith
    have hfloor : ⌊f * 256⌋₊ < 256 := by
      rw [Nat.floor_lt (by push_neg at h1; positivity)]
      exact_mod_cast this
    omega

/-- C9 (amended): packing clamps, unpacking does not: the 8-bit packing stage
saturates: ToU8 and ToU8u map any value ≤ 0 to 0 and any value ≥ 1 to 255
(not 254), so packed channels always lie in [0,255]; at the colour level a
channel equal to 0 packs to 0 and a channel ≥ 1 packs to 255 under both
conventions; FromRGBA32 and FromRGBA32u apply no clamping — they are exactly
the divide-then-gamma-decode formulas. -/
theorem C9_packing_clamps (f : ℝ) (c : Vec3f) (p : RGBA32) :
    (f ≤ 0 → ToU8 f = 0 ∧ ToU8u f = 0) ∧
    (1 ≤ f → ToU8 f = 255 ∧ ToU8u f = 255) ∧
    ToU8 f ≤ 255 ∧ ToU8u f ≤ 255 ∧
    (c.x = 0 → (ToRGBA32 c).r = 0 ∧ (ToRGBA32u c).r = 0) ∧
    (c.y = 0 → (ToRGBA32 c).g = 0 ∧ (ToRGBA32u c).g = 0) ∧
    (c.z = 0 → (ToRGBA32 c).b = 0 ∧ (ToRGBA32u c).b = 0) ∧
    (1 ≤ c.x → (ToRGBA32 c).r = 255 ∧ (ToRGBA32u c).r = 255) ∧
    (1 ≤ c.y → (ToRGBA32 c).g = 255 ∧ (ToRGBA32u c).g = 255) ∧
    (1 ≤ c.z → (ToRGBA32 c).b = 255 ∧ (ToRGBA32u c).b = 255) ∧
    FromRGBA32 p = powv ⟨(p.r : ℝ) / 255, (p.g : ℝ) / 255, (p.b : ℝ) / 255⟩ kGamma ∧
    FromRGBA32u p = powv ⟨(p.r : ℝ) / 256, (p.g : ℝ) / 256, (p.b : ℝ) / 256⟩ kGamma := by
  refine ⟨fun h => ⟨ToU8_zero_of_nonpos f h, ToU8u_zero_of_nonpos f h⟩,
    fun h => ⟨ToU8_255_of_ge_one f h, ToU8u_255_of_ge_one f h⟩,
    ToU8_le_255 f, ToU8u_le_255 f, ?_, ?_, ?_, ?_, ?_, ?_, rfl, rfl⟩
  · intro h
    have : (ToRGBA32 c).r = ToU8 (c.x ^ (1 / kGamma : ℝ)) := rfl
    have hu : (ToRGBA32u c).r = ToU8u (c.x ^ (1 / kGamma : ℝ)) := rfl
    rw [this, hu, h, gamma_encode_zero]
    exact ⟨ToU8_zero_of_nonpos 0 le_rfl, ToU8u_zero_of_nonpos 0 le_rfl⟩
  · intro h
    have : (ToRGBA32 c).g = ToU8 (c.y ^ (1 / kGamma : ℝ)) := rfl
    have hu : (ToRGBA32u c).g = ToU8u (c.y ^ (1 / kGamma : ℝ)) := rfl
    rw [this, hu, h, gamma_encode_zero]
    exact ⟨ToU8_zero_of_nonpos 0 le_rfl, ToU8u_zero_of_nonpos 0 le_rfl⟩
  · intro h
    have : (ToRGBA32 c).b = ToU8 (c.z ^ (1 / kGamma : ℝ)) := rfl
    have hu : (ToRGBA32u c).b = ToU8u (c.z ^ (1 / kGamma : ℝ)) := rfl
    rw [this, hu, h, gamma_encode_zero]
    exact ⟨ToU8_zero_of_nonpos 0 le_rfl, ToU8u_zero_of_nonpos 0 le_rfl⟩
  · intro h
    exact ⟨ToU8_255_of_ge_one _ (gamma_encode_ge_one c.x h),
      ToU8u_255_of_ge_one _ (gamma_encode_ge_one c.x h)⟩
  · intro h
    exact ⟨ToU8_255_of_ge_one _ (gamma_encode_ge_one c.y h),
      ToU8u_255_of_ge_one _ (gamma_encode_ge_one c.y h)⟩
  · intro h
    exact ⟨ToU8_255_of_ge_one _ (gamma_encode_ge_one c.z h),
      ToU8u_255_of_ge_one _ (gamma_encode_ge_one c.z h)⟩

/-- C9 witness: the packing clamps applied at the concrete values 0 and 1. -/
theorem C9_packing_clamps_witness :
    ToU8 0 = 0 ∧ ToU8u 1 = 255 :=
  ⟨((C9_packing_clamps 0 ⟨0, 0, 0⟩ ⟨0, 0, 0, 0⟩).1 le_rfl).1,
   ((C9_packing_clamps 1 ⟨0, 0, 0⟩ ⟨0, 0, 0, 0⟩).2.1 le_rfl).2⟩

/-- C9 counterexample: ToRGBA32u does not clamp out-of-range channels to
[0,254]: the out-of-gamut colour (2,2,2) packs to channel value 255. -/
theorem C9_packing_clamps_cex :
    (ToRGBA32u ⟨2, 2, 2⟩).r = 255 ∧ ¬ (ToRGBA32u ⟨2, 2, 2⟩).r ≤ 254 := by
  have h : (ToRGBA32u ⟨2, 2, 2⟩).r = ToU8u ((2 : ℝ) ^ (1 / kGamma : ℝ)) := rfl
  have h1 : (1 : ℝ) ≤ (2 : ℝ) ^ (1 / kGamma : ℝ) :=
    Real.one_le_rpow (by norm_num) (by norm_num [kGamma])
  rw [h, ToU8u_255_of_ge_one _ h1]
  omega

theorem ToRGBA32u_channels_le (c : Vec3f) :
    (ToRGBA32u c).r ≤ 255 ∧ (ToRGBA32u c).g ≤ 255 ∧ (ToRGBA32u c).b ≤ 255 :=
  ⟨ToU8u_le_255 _, ToU8u_le_255 _, ToU8u_le_255 _⟩

/-- C1 (amended): LUT exactness at grid centers with all indices at most 30:
the cube built by CreateLUT stores ToRGBA32u(f(FromRGBA32u(center))) at cell
(i,j,k), and ApplyLUT applied to that cell's center pixel returns exactly the
stored entry. (At cells with an index equal to 31 the high-boundary
extrapolation adjustment makes ApplyLUT fetch neighbouring cells, and
exactness can fail for channel-coupling transforms.) -/
theorem C1_lut_exact_at_centers (f : Vec3f → Vec3f) (i j k : ℕ)
    (hi : i ≤ 30) (hj : j ≤ 30) (hk : k ≤ 30) :
    applyLUT1 (createLUT f) (centerPix i j k) = createLUT f i j k ∧
    createLUT f i j k = ToRGBA32u (f (FromRGBA32u (centerPix i j k))) := by
  refine ⟨?_, rfl⟩
  rw [applyLUT1_center (createLUT f) (fun x y z => ToRGBA32u_channels_le _)
    i j k hi hj hk]
  rfl

/-- C1 witness: exactness at the interior cell (3, 4, 5) for the identity
transform. -/
theorem C1_lut_exact_at_centers_witness :
    applyLUT1 (createLUT (fun c => c)) (centerPix 3 4 5)
      = createLUT (fun c => c) 3 4 5 ∧
    createLUT (fun c => c) 3 4 5
      = ToRGBA32u ((fun c => c) (FromRGBA32u (centerPix 3 4 5))) :=
  C1_lut_exact_at_centers (fun c => c) 3 4 5 (by decide) (by decide) (by decide)

/-- The channel-swapping (red/green) transform used to exhibit the boundary
failure of LUT exactness. -/
def swapRG : Vec3f → Vec3f := fun v => ⟨v.y, v.x, v.z⟩

theorem gamma_roundtrip (x : ℝ) (hx : 0 ≤ x) :
    (x ^ kGamma) ^ (1 / kGamma : ℝ) = x := by
  rw [← Real.rpow_mul hx]
  norm_num [kGamma]

theorem ToU8u_byte (v : ℕ) (hv : v ≤ 255) : ToU8u ((v : ℝ) / 256) = v := by
  rcases Nat.eq_zero_or_pos v with h0 | hpos
  · subst h0
    unfold ToU8u
    norm_num
  · have hA : ¬ ((v : ℝ) / 256 ≤ 0) := by
      push_neg
      exact div_pos (by exact_mod_cast hpos) (by norm_num)
    have hB : ¬ ((1 : ℝ) ≤ (v : ℝ) / 256) := by
      push_neg
      rw [div_lt_one (by norm_num)]
      exact_mod_cast Nat.lt_of_le_of_lt hv (by norm_num)
    unfold ToU8u
    rw [if_neg hA, if_neg hB]
    have hmul : ((v : ℝ) / 256) * 256 = (v : ℝ) := by field_simp
    rw [hmul, Nat.floor_natCast]

/-- On byte-valued cell centers, the unpack/repack round trip of CreateLUT is
exact, so the cube built from swapRG has its red and green center values
exchanged. -/
theorem createLUT_swapRG (i j k : ℕ) (hi : i ≤ 31) (hj : j ≤ 31) (hk : k ≤ 31) :
    createLUT swapRG i j k =
      ⟨j * 8 + 4, k * 8 + 4, i * 8 + 4, 255⟩ := by
  have h1 : createLUT swapRG i j k
      = ⟨ToU8u (((((j * 8 + 4 : ℕ) : ℝ) / 256) ^ kGamma) ^ (1 / kGamma : ℝ)),
         ToU8u (((((k * 8 + 4 : ℕ) : ℝ) / 256) ^ kGamma) ^ (1 / kGamma : ℝ)),
         ToU8u (((((i * 8 + 4 : ℕ) : ℝ) / 256) ^ kGamma) ^ (1 / kGamma : ℝ)),
         255⟩ := rfl
  rw [h1, gamma_roundtrip _ (by positivity), gamma_roundtrip _ (by positivity),
    gamma_roundtrip _ (by positivity), ToU8u_byte _ (by omega),
    ToU8u_byte _ (by omega), ToU8u_byte _ (by omega)]

/-- C1 counterexample: at the boundary cell (0, 31, 0) — center pixel
(4, 252, 4) — ApplyLUT on the cube built from swapRG does not return the
stored entry: the high-boundary adjustment on the green axis shifts the
fetched cells on all three axes. -/
theorem C1_lut_exact_at_centers_cex :
    applyLUT1 (createLUT swapRG) (centerPix 0 31 0) ≠ createLUT swapRG 0 31 0 := by
  have he4 : axisExtrap 4 = (0, 1, 0) := rfl
  have he252 : axisExtrap 252 = (30, 31, 8) := rfl
  have hC0 := createLUT_swapRG 0 30 0 (by omega) (by omega) (by omega)
  have hC1 := createLUT_swapRG 1 31 1 (by omega) (by omega) (by omega)
  have hSt := createLUT_swapRG 0 31 0 (by omega) (by omega) (by omega)
  have hcp : centerPix 0 31 0 = (⟨4, 252, 4, 255⟩ : RGBA32) := rfl
  have happly : applyLUT1 (createLUT swapRG) (centerPix 0 31 0)
      = ⟨244, 12, 4, 255⟩ := by
    rw [hcp]
    simp only [applyLUT1, he4, he252, Int.toNat_zero, Int.toNat_ofNat,
      Int.toNat_one]
    rw [show Int.toNat 30 = 30 from rfl, show Int.toNat 31 = 31 from rfl]
    rw [hC0, hC1]
    decide
  rw [happly, hSt]
  decide

/-- A red-separable family of cubes: the red channel of entry (i,j,k) is v0
at k = 0, v1 at k = 1 and the identity value otherwise; green and blue carry
the identity center values. -/
def redLut (v0 v1 : ℕ) : Lut := fun i j k =>
  { r := if k = 0 then v0 else if k = 1 then v1 else k * 8 + 4
    g := j * 8 + 4
    b := i * 8 + 4
    a := 255 }

/-- C4 (amended): boundary extrapolation: at the low boundary ApplyLUT pushes
i1 one step out and biases the weight by -8 eighths (symmetrically +8 at the
high boundary), and final values are clamped to [0,255]; for a red-separable
cube with nearest samples v0, v1, sampling red value 0 gives
clamp(⌊(12·v0 - 4·v1)/8⌋) while clamp mode gives v0, and the two differ
exactly when (1 ≤ v0 and v0 + 1 ≤ v1) or (v1 + 2 ≤ v0 and v0 ≤ 254) — not
whenever the two samples merely differ (v1 = v0 - 1 gives equality, as does
saturation of the final clamp). -/
theorem C4_boundary_extrapolation (v0 v1 : ℕ) (h0 : v0 ≤ 255) (h1 : v1 ≤ 255) :
    axisExtrap 0 = (0, 1, -4) ∧
    axisExtrap 255 = (30, 31, 11) ∧
    (applyLUT1Clamp (redLut v0 v1) ⟨0, 4, 4, 255⟩).r = v0 ∧
    (applyLUT1 (redLut v0 v1) ⟨0, 4, 4, 255⟩).r
      = (clamp255 ((12 * (v0 : ℤ) - 4 * (v1 : ℤ)).fdiv 8)).toNat ∧
    ((applyLUT1 (redLut v0 v1) ⟨0, 4, 4, 255⟩).r
        ≠ (applyLUT1Clamp (redLut v0 v1) ⟨0, 4, 4, 255⟩).r ↔
      (1 ≤ v0 ∧ v0 + 1 ≤ v1) ∨ (v1 + 2 ≤ v0 ∧ v0 ≤ 254)) := by
  have he0 : axisExtrap 0 = (0, 1, -4) := rfl
  have he4 : axisExtrap 4 = (0, 1, 0) := rfl
  have hc0 : axisClamp 0 = (0, 0, 4) := rfl
  have hc4 : axisClamp 4 = (0, 1, 0) := rfl
  have hclamp : (applyLUT1Clamp (redLut v0 v1) ⟨0, 4, 4, 255⟩).r = v0 := by
    simp only [applyLUT1Clamp, hc0, hc4, redLut, blend]
    norm_num
    rw [Int.fdiv_eq_ediv _ (by norm_num)]
    omega
  refine ⟨rfl, rfl, hclamp, ?_, ?_⟩
  · simp only [applyLUT1, he0, he4, redLut, blend]
    norm_num
    ring_nf
  · rw [hclamp]
    simp only [applyLUT1, he0, he4, redLut, blend]
    norm_num
    rw [Int.fdiv_eq_ediv _ (by norm_num)]
    unfold clamp255
    split_ifs <;> omega

/-- C4 witness: the boundary-extrapolation characterisation evaluated for the
identity samples v0 = 4, v1 = 12 (where extrapolation yields 0 and clamp mode
yields 4). -/
theorem C4_boundary_extrapolation_witness :
    axisExtrap 0 = (0, 1, -4) ∧
    axisExtrap 255 = (30, 31, 11) ∧
    (applyLUT1Clamp (redLut 4 12) ⟨0, 4, 4, 255⟩).r = 4 ∧
    (applyLUT1 (redLut 4 12) ⟨0, 4, 4, 255⟩).r
      = (clamp255 ((12 * (4 : ℤ) - 4 * (12 : ℤ)).fdiv 8)).toNat ∧
    ((applyLUT1 (redLut 4 12) ⟨0, 4, 4, 255⟩).r
        ≠ (applyLUT1Clamp (redLut 4 12) ⟨0, 4, 4, 255⟩).r ↔
      (1 ≤ 4 ∧ 4 + 1 ≤ 12) ∨ (12 + 2 ≤ 4 ∧ 4 ≤ 254)) :=
  C4_boundary_extrapolation 4 12 (by decide) (by decide)

/-- C4 counterexample: with nearest red samples 4 (lower) and 3 (upper) —
samples that differ — extrapolated sampling of red value 0 equals the
clamp-mode result and equals the first grid sample. -/
theorem C4_boundary_extrapolation_cex :
    (redLut 4 3 0 0 0).r ≠ (redLut 4 3 1 1 1).r ∧
    applyLUT1 (redLut 4 3) ⟨0, 4, 4, 255⟩
      = applyLUT1Clamp (redLut 4 3) ⟨0, 4, 4, 255⟩ ∧
    (applyLUT1 (redLut 4 3) ⟨0, 4, 4, 255⟩).r = (redLut 4 3 0 0 0).r := by
  decide

end CBLut
